import Mathlib

/-!
Shallow embedding of the persisted per-identity rate limiter
(`ratelimiter` package: `PersistedRateLimiter` and its helpers).

Conventions of the embedding:
- identities and stored record values are byte sequences, modelled as
  `List Nat` (each entry a byte value);
- machine `uint64` arithmetic is `Nat` with explicit `% 2^64` where the Go
  code converts through `uint64`;
- the leveldb store is a per-record-kind association table; a read yields
  `notFound`, `found bytes`, or `ioError` (the leveldb sentinel
  `ErrNotFound` versus any other error); a write succeeds iff the store's
  `putOK` flag is set, modelling persistence outages;
- the external `juju/ratelimit` token bucket is not part of the sources and
  is modelled from the specification (§4.1), see `Bucket.refill` below;
- the Go mutexes only serialize access; the model is the sequential
  interleaving semantics of the operations;
- the `prefix` namespacing field only separates key spaces of independent
  limiter instances sharing one physical store; the model's tables are
  per-limiter and per-kind, so the field is represented by that separation;
- Go runtime panics (nil-slice decode, nil-pointer method call) are modelled
  as a distinguished `panic` / `none` outcome.
-/

/-- Identities are opaque byte sequences (Go `[]byte`). -/
abbrev Ident := List Nat

/-- `k` big-endian bytes of `n`, most significant first. -/
def toBEbytes : Nat → Nat → List Nat
  | 0, _ => []
  | k + 1, n => toBEbytes k (n / 256) ++ [n % 256]

/-- `binary.BigEndian.PutUint64`: Go converts through `uint64`, hence `% 2^64`. -/
def toBE8 (n : Nat) : List Nat := toBEbytes 8 (n % 18446744073709551616)

/-- `binary.BigEndian.Uint64` over an 8-byte slice. -/
def fromBE8 (l : List Nat) : Nat := l.foldl (fun a b => a * 256 + b) 0

/-- `Config` (source): `Interval, Capacity, Quantum uint64`. -/
structure Config where
  Interval : Nat
  Capacity : Nat
  Quantum : Nat
deriving DecidableEq

/-- Modelled from the spec: the `juju/ratelimit` token bucket is not part of
this repository's sources; §4.1 specifies capacity, available tokens
(`0 <= available <= capacity`) and a refill rate `Quantum/Interval`. -/
structure Bucket where
  capacity : Nat
  available : Nat
  quantum : Nat
  interval : Nat
  lastRefill : Nat
deriving DecidableEq

/-- Modelled from the spec (§4.1): refill sets
`available = min(capacity, available + elapsed_time * rate)` with
`rate = Quantum/Interval`, realised in integer (floor) arithmetic. -/
def Bucket.refill (b : Bucket) (now : Nat) : Bucket :=
  { b with
    available := min b.capacity (b.available + (now - b.lastRefill) * b.quantum / b.interval),
    lastRefill := now }

/-- Modelled from the spec (§4.1): `takeAvailable(n)` first refills, then
debits `min(n, available)` and returns the amount actually debited. -/
def Bucket.takeAvailable (b : Bucket) (now n : Nat) : Bucket × Nat :=
  let br := b.refill now
  let taken := min n br.available
  ({ br with available := br.available - taken }, taken)

/-- Modelled from the spec (§4.1): `available()` returns current tokens after
applying refill, without debiting. -/
def Bucket.availableAt (b : Bucket) (now : Nat) : Nat := (b.refill now).available

/-- `newBucket` (source): `ratelimit.NewBucketWithQuantum(Interval, Capacity,
Quantum)` — a fresh bucket at full capacity. -/
def newBucket (c : Config) (now : Nat) : Bucket :=
  { capacity := c.Capacity, available := c.Capacity, quantum := c.Quantum,
    interval := c.Interval, lastRefill := now }

/-- `compare` (source): capacity equality and rate equality. The float
comparison `1e9*Quantum/Interval == bucket.Rate()` is modelled as exact
ratio equality by cross-multiplication. -/
def compare (c : Config) (b : Bucket) : Bool :=
  c.Capacity == b.capacity && c.Quantum * b.interval == b.quantum * c.Interval

/-- Association-table lookup (Go map / leveldb keyed access). -/
def alookup {α : Type} : List (Ident × α) → Ident → Option α
  | [], _ => none
  | (k, v) :: rest, id => if k = id then some v else alookup rest id

/-- Remove every binding of `id`. -/
def aerase {α : Type} (m : List (Ident × α)) (id : Ident) : List (Ident × α) :=
  m.filter (fun p => p.1 != id)

/-- Bind `id` to `v`, replacing any previous binding. -/
def aset {α : Type} (m : List (Ident × α)) (id : Ident) (v : α) : List (Ident × α) :=
  (id, v) :: aerase m id

/-- Outcome of a leveldb `Get`: the `ErrNotFound` sentinel, a value, or any
other (I/O) error. -/
inductive GetResult where
  | notFound
  | found (val : List Nat)
  | ioError
deriving DecidableEq

/-- The store: one table per record kind (blacklist / config override /
capacity snapshot), plus a flag telling whether `Put` calls succeed. -/
structure DB where
  blacklistTbl : List (Ident × GetResult)
  configTbl : List (Ident × GetResult)
  capacityTbl : List (Ident × GetResult)
  putOK : Bool
deriving DecidableEq

def DB.getBlacklist (d : DB) (id : Ident) : GetResult :=
  (alookup d.blacklistTbl id).getD .notFound

def DB.getConfig (d : DB) (id : Ident) : GetResult :=
  (alookup d.configTbl id).getD .notFound

def DB.getCapacity (d : DB) (id : Ident) : GetResult :=
  (alookup d.capacityTbl id).getD .notFound

/-- `Put` on the blacklist key; `none` models a store write error. -/
def DB.putBlacklist (d : DB) (id : Ident) (v : List Nat) : Option DB :=
  if d.putOK then some { d with blacklistTbl := aset d.blacklistTbl id (.found v) } else none

/-- `Put` on the capacity-snapshot key; `none` models a store write error. -/
def DB.putCapacity (d : DB) (id : Ident) (v : List Nat) : Option DB :=
  if d.putOK then some { d with capacityTbl := aset d.capacityTbl id (.found v) } else none

/-- `Delete` on the blacklist key (the source discards its error). -/
def DB.delBlacklist (d : DB) (id : Ident) : DB :=
  { d with blacklistTbl := aerase d.blacklistTbl id }

/-- `PersistedRateLimiter` state: store handle, default config and the
`initialized` identity→bucket registry. -/
structure RL where
  db : DB
  defaultConfig : Config
  buckets : List (Ident × Bucket)
deriving DecidableEq

/-- `getOrCreate` (source): atomic lookup-or-insert; an existing bucket is
returned as is, the passed config being ignored in that case. -/
def RL.getOrCreate (r : RL) (id : Ident) (c : Config) (now : Nat) : RL × Bucket :=
  match alookup r.buckets id with
  | some b => (r, b)
  | none =>
    let b := newBucket c now
    ({ r with buckets := (id, b) :: r.buckets }, b)

/-- `PersistedRateLimiter.blacklist`: writes the 8-byte big-endian deadline
`now + duration`; `none` models the surfaced put error. -/
def RL.blacklistOp (r : RL) (id : Ident) (duration now : Nat) : Option RL :=
  match r.db.putBlacklist id (toBE8 (now + duration)) with
  | some d => some { r with db := d }
  | none => none

/-- Error taxonomy of the limiter operations. -/
inductive RLErr where
  | blacklisted
  | persistence
  | decodeFail
deriving DecidableEq

/-- Result of `Create`: success or error (each carrying the resulting limiter
state), or a Go runtime panic. -/
inductive CResult where
  | panic
  | err (e : RLErr) (r : RL)
  | ok (r : RL)
deriving DecidableEq

/-- Modelled from the spec (§6): the config override record is a
schema-stable encoding of `(Interval, Capacity, Quantum)` as u64 fields; the
external rlp library is not part of the sources, so the encoding is modelled
as three fixed-width big-endian u64 fields, decoding failing on any other
shape. -/
def decodeConfig (val : List Nat) : Option Config :=
  if val.length = 24 then
    some { Interval := fromBE8 (val.take 8),
           Capacity := fromBE8 ((val.drop 8).take 8),
           Quantum := fromBE8 (val.drop 16) }
  else none

/-- Capacity-snapshot hydration step of `Create` (source lines 200-212): a
missing record, an I/O error (nil value, caught by the `len != 16` check) and
a record of the wrong length are all fail-open; otherwise the first 8 bytes
are replayed through `TakeAvailable`. -/
def RL.createWithCfg (r : RL) (id : Ident) (cfg : Config) (now : Nat) : CResult :=
  let p := r.getOrCreate id cfg now
  match p.1.db.getCapacity id with
  | .notFound => .ok p.1
  | .ioError => .ok p.1
  | .found val =>
    if val.length ≠ 16 then .ok p.1
    else
      let q := p.2.takeAvailable now (fromBE8 (val.take 8))
      .ok { p.1 with buckets := aset p.1.buckets id q.1 }

/-- Config-override resolution step of `Create` (source lines 188-199). -/
def RL.createWithConfigLoad (r : RL) (id : Ident) (now : Nat) : CResult :=
  match r.db.getConfig id with
  | .notFound => r.createWithCfg id r.defaultConfig now
  | .ioError => .err .persistence r
  | .found val =>
    match decodeConfig val with
    | none => .err .decodeFail r
    | some cfg => r.createWithCfg id cfg now

/-- `PersistedRateLimiter.Create` (source lines 178-213). The blacklist value
is decoded whenever the read did not yield `ErrNotFound`; `.panic` models the
Go runtime panic of `binary.BigEndian.Uint64` on a value shorter than 8
bytes — in particular on the nil value accompanying an I/O error. -/
def RL.create (r : RL) (id : Ident) (now : Nat) : CResult :=
  match r.db.getBlacklist id with
  | .notFound => r.createWithConfigLoad id now
  | .ioError => .panic
  | .found val =>
    if val.length < 8 then .panic
    else
      if fromBE8 (val.take 8) ≥ now then .err .blacklisted r
      else { r with db := r.db.delBlacklist id }.createWithConfigLoad id now

/-- `PersistedRateLimiter.store`: the 16-byte snapshot record — 8 bytes
big-endian consumed amount (`Capacity() - Available()`), then 8 bytes
big-endian save time. -/
def snapshotBytes (b : Bucket) (now : Nat) : List Nat :=
  toBE8 (b.capacity - b.availableAt now) ++ toBE8 now

def RL.storeOp (r : RL) (id : Ident) (b : Bucket) (now : Nat) : Option DB :=
  r.db.putCapacity id (snapshotBytes b now)

/-- `PersistedRateLimiter.TakeAvailable` (source lines 244-251): debit the
(possibly implicitly created) bucket, then best-effort persist — a put
failure is logged only. -/
def RL.take (r : RL) (id : Ident) (count now : Nat) : RL × Nat :=
  let p := r.getOrCreate id r.defaultConfig now
  let q := p.2.takeAvailable now count
  let r2 := { p.1 with buckets := aset p.1.buckets id q.1 }
  match r2.storeOp id q.1 now with
  | some d => ({ r2 with db := d }, q.2)
  | none => (r2, q.2)

/-- `PersistedRateLimiter.Available`. -/
def RL.availableOp (r : RL) (id : Ident) (now : Nat) : RL × Nat :=
  let p := r.getOrCreate id r.defaultConfig now
  (p.1, p.2.availableAt now)

/-- `PersistedRateLimiter.Remove` (source lines 216-230); `none` models a
returned error (blacklist put failure or snapshot put failure). -/
def RL.remove (r : RL) (id : Ident) (duration now : Nat) : Option RL :=
  match (if duration ≠ 0 then r.blacklistOp id duration now else some r) with
  | none => none
  | some r1 =>
    match alookup r1.buckets id with
    | none => some { r1 with buckets := aerase r1.buckets id }
    | some b =>
      let r2 := { r1 with buckets := aerase r1.buckets id }
      match r2.storeOp id b now with
      | some d => some { r2 with db := d }
      | none => none

/-- `PersistedRateLimiter.UpdateConfig` (source lines 257-272); `none` models
the Go nil-pointer panic: `compare` is applied to the registry map's zero
value (a nil bucket) when no bucket is registered for the identity. -/
def RL.updateConfig (r : RL) (id : Ident) (c : Config) (now : Nat) : Option RL :=
  match alookup r.buckets id with
  | none => none
  | some old =>
    if compare c old then some r
    else
      let r1 := { r with buckets := aerase r.buckets id }
      let taken := old.capacity - old.availableAt now
      let p := r1.getOrCreate id c now
      let q := p.2.takeAvailable now taken
      some { p.1 with buckets := aset p.1.buckets id q.1 }

/-- Folds a sequence of `TakeAvailable(id, n_i)` calls at one fixed instant
(no elapsed time between them), collecting the returned amounts. -/
def takeSeq (r : RL) (id : Ident) (now : Nat) : List Nat → RL × List Nat
  | [] => (r, [])
  | n :: ns =>
    let p := r.take id n now
    let q := takeSeq p.1 id now ns
    (q.1, p.2 :: q.2)

def CResult.isOk : CResult → Bool
  | .ok _ => true
  | _ => false

def CResult.isBlacklistedErr : CResult → Bool
  | .err .blacklisted _ => true
  | _ => false

/-! ### Basic lemmas about the byte encoding and the tables -/

theorem toBEbytes_length (k n : Nat) : (toBEbytes k n).length = k := by
  induction k generalizing n with
  | zero => rfl
  | succ k ih => simp [toBEbytes, ih]

theorem toBE8_length (n : Nat) : (toBE8 n).length = 8 := toBEbytes_length 8 _

theorem foldl_toBEbytes (k : Nat) : ∀ n a, n < 256 ^ k →
    List.foldl (fun a b => a * 256 + b) a (toBEbytes k n) = a * 256 ^ k + n := by
  induction k with
  | zero => intro n a h; simp [toBEbytes]; omega
  | succ k ih =>
    intro n a h
    have hdiv : n / 256 < 256 ^ k := by
      rw [Nat.div_lt_iff_lt_mul (by norm_num)]
      calc n < 256 ^ (k + 1) := h
        _ = 256 ^ k * 256 := by ring
    rw [toBEbytes, List.foldl_append, ih _ a hdiv]
    simp only [List.foldl_cons, List.foldl_nil]
    have := Nat.div_add_mod n 256
    ring_nf
    omega

theorem fromBE8_toBE8 (n : Nat) (h : n < 18446744073709551616) :
    fromBE8 (toBE8 n) = n := by
  have hm : n % 18446744073709551616 = n := Nat.mod_eq_of_lt h
  have h8 : n < 256 ^ 8 := by
    have : (256 : Nat) ^ 8 = 18446744073709551616 := by norm_num
    omega
  rw [toBE8, hm, fromBE8, foldl_toBEbytes 8 n 0 h8]
  simp

theorem alookup_cons_self {α : Type} (m : List (Ident × α)) (id : Ident) (v : α) :
    alookup ((id, v) :: m) id = some v := by
  simp [alookup]

theorem alookup_aerase {α : Type} (m : List (Ident × α)) (id : Ident) :
    alookup (aerase m id) id = none := by
  induction m with
  | nil => rfl
  | cons p rest ih =>
    by_cases h : p.1 = id
    · simpa [aerase, h] using ih
    · simpa [aerase, alookup, h, List.filter_cons] using ih

theorem alookup_aset {α : Type} (m : List (Ident × α)) (id : Ident) (v : α) :
    alookup (aset m id v) id = some v := by
  simp [aset, alookup]

/-! ### Basic lemmas about the bucket arithmetic -/

/-- With no elapsed time and a well-formed availability, refill is the
identity. -/
theorem refill_noop (b : Bucket) (now : Nat) (hl : b.lastRefill = now)
    (hle : b.available ≤ b.capacity) : b.refill now = b := by
  cases b with
  | mk cap avail q i last =>
    simp only [Bucket.refill] at *
    simp_all [Nat.sub_self]

theorem availableAt_noop (b : Bucket) (now : Nat) (hl : b.lastRefill = now)
    (hle : b.available ≤ b.capacity) : b.availableAt now = b.available := by
  rw [Bucket.availableAt, refill_noop b now hl hle]

/-- A fresh bucket starts at full capacity. -/
theorem newBucket_availableAt (c : Config) (now t : Nat) :
    (newBucket c now).availableAt t = c.Capacity := by
  simp [newBucket, Bucket.availableAt, Bucket.refill]

/-! ### Characterizing `TakeAvailable` -/

/-- `TakeAvailable` on a registered bucket with no elapsed time: debits
`min(count, available)`, registers the debited bucket, keeps the default
config; the opportunistic persist does not affect any of this. -/
theorem take_found (r : RL) (id : Ident) (b : Bucket) (n now : Nat)
    (hb : alookup r.buckets id = some b)
    (hl : b.lastRefill = now) (hle : b.available ≤ b.capacity) :
    (r.take id n now).2 = min n b.available ∧
    alookup (r.take id n now).1.buckets id
      = some { b with available := b.available - min n b.available } ∧
    (r.take id n now).1.defaultConfig = r.defaultConfig := by
  have hr : b.refill now = b := refill_noop b now hl hle
  simp only [RL.take, RL.getOrCreate, hb, Bucket.takeAvailable, hr, RL.storeOp]
  split <;> simp [alookup_aset]

/-- `TakeAvailable` on an unregistered identity: implicitly creates a
default-config bucket at full capacity, then debits it. -/
theorem take_fresh (r : RL) (id : Ident) (n now : Nat)
    (hb : alookup r.buckets id = none) :
    (r.take id n now).2 = min n r.defaultConfig.Capacity ∧
    alookup (r.take id n now).1.buckets id
      = some { capacity := r.defaultConfig.Capacity,
               available := r.defaultConfig.Capacity - min n r.defaultConfig.Capacity,
               quantum := r.defaultConfig.Quantum,
               interval := r.defaultConfig.Interval,
               lastRefill := now } ∧
    (r.take id n now).1.defaultConfig = r.defaultConfig := by
  have hr : (newBucket r.defaultConfig now).refill now = newBucket r.defaultConfig now :=
    refill_noop _ now rfl le_rfl
  simp only [RL.take, RL.getOrCreate, hb, Bucket.takeAvailable, hr, RL.storeOp]
  split <;> simp [alookup_aset, newBucket]

theorem takeSeq_cons (r : RL) (id : Ident) (now n : Nat) (ns : List Nat) :
    takeSeq r id now (n :: ns)
      = ((takeSeq (r.take id n now).1 id now ns).1,
         (r.take id n now).2 :: (takeSeq (r.take id n now).1 id now ns).2) := rfl

/-- Invariant of a same-instant `TakeAvailable` sequence over a registered
bucket: capacity is preserved, every returned amount is bounded by its
request, and available tokens drop by exactly the sum of the returns. -/
theorem takeSeq_inv (id : Ident) (now : Nat) (ns : List Nat) :
    ∀ (r : RL) (b : Bucket), alookup r.buckets id = some b →
    b.lastRefill = now → b.available ≤ b.capacity →
    ∃ b' : Bucket,
      alookup (takeSeq r id now ns).1.buckets id = some b' ∧
      b'.capacity = b.capacity ∧ b'.lastRefill = now ∧ b'.available ≤ b'.capacity ∧
      b'.available + (takeSeq r id now ns).2.sum = b.available ∧
      List.Forall₂ (fun t m => t ≤ m) (takeSeq r id now ns).2 ns := by
  induction ns with
  | nil =>
    intro r b hb hl hle
    exact ⟨b, by simpa [takeSeq] using ⟨hb, hl, hle⟩⟩
  | cons n ns ih =>
    intro r b hb hl hle
    obtain ⟨h1, h2, _⟩ := take_found r id b n now hb hl hle
    obtain ⟨b', hb', hcap, hlr, hle', hsum, hfa⟩ :=
      ih (r.take id n now).1 { b with available := b.available - min n b.available }
        h2 (by simp [hl]) (by simp; omega)
    refine ⟨b', ?_, ?_, ?_, ?_, ?_, ?_⟩
    · simpa [takeSeq_cons] using hb'
    · simpa using hcap
    · exact hlr
    · exact hle'
    · simp only [takeSeq_cons, List.sum_cons, h1]
      simp at hsum
      omega
    · simp only [takeSeq_cons]
      exact List.Forall₂.cons (by simp [h1]) hfa

/-- C1 — Conservation: for every identity and every sequence of
`TakeAvailable(id, n_i)` calls with no elapsed time between them (so no
refill), each call returns `taken_i` with `0 <= taken_i <= n_i` (amounts are
naturals, so nonnegative by type), and afterwards the bucket's available
tokens equal capacity minus the sum of all `taken_i`. -/
theorem c1_conservation (r0 : RL) (id : Ident) (now : Nat) (ns : List Nat)
    (hun : alookup r0.buckets id = none) :
    List.Forall₂ (fun t m => t ≤ m) (takeSeq r0 id now ns).2 ns ∧
    ((takeSeq r0 id now ns).1.availableOp id now).2 + (takeSeq r0 id now ns).2.sum
      = r0.defaultConfig.Capacity := by
  cases ns with
  | nil =>
    constructor
    · simp [takeSeq]
    · simp [takeSeq, RL.availableOp, RL.getOrCreate, hun, newBucket_availableAt]
  | cons n ns =>
    obtain ⟨h1, h2, _⟩ := take_fresh r0 id n now hun
    obtain ⟨b', hb', hcap, hlr, hle', hsum, hfa⟩ :=
      takeSeq_inv id now ns (r0.take id n now).1 _ h2 rfl (by simp)
    constructor
    · rw [takeSeq_cons]
      exact List.Forall₂.cons (by simp [h1]) hfa
    · rw [takeSeq_cons]
      simp only [List.sum_cons]
      have hav : ((takeSeq (r0.take id n now).1 id now ns).1.availableOp id now).2
          = b'.available := by
        simp [RL.availableOp, RL.getOrCreate, hb', availableAt_noop b' now hlr hle']
      rw [hav, h1]
      simp only at hsum
      omega

/-- Witness for C1: two back-to-back calls taking 7 then 5 from a fresh
capacity-10 identity return 7 and 3, leaving 0 available. -/
theorem c1_conservation_witness :
    alookup (RL.mk ⟨[], [], [], true⟩ ⟨1, 10, 1⟩ []).buckets [1] = none ∧
    (List.Forall₂ (fun t m => t ≤ m)
        (takeSeq (RL.mk ⟨[], [], [], true⟩ ⟨1, 10, 1⟩ []) [1] 0 [7, 5]).2 [7, 5] ∧
      ((takeSeq (RL.mk ⟨[], [], [], true⟩ ⟨1, 10, 1⟩ []) [1] 0 [7, 5]).1.availableOp [1] 0).2
          + (takeSeq (RL.mk ⟨[], [], [], true⟩ ⟨1, 10, 1⟩ []) [1] 0 [7, 5]).2.sum
        = (RL.mk ⟨[], [], [], true⟩ ⟨1, 10, 1⟩ []).defaultConfig.Capacity) :=
  ⟨by decide, c1_conservation (RL.mk ⟨[], [], [], true⟩ ⟨1, 10, 1⟩ []) [1] 0 [7, 5] (by decide)⟩

/-! ### Characterizing `Create` -/

theorem getBlacklist_delBlacklist (d : DB) (id : Ident) :
    (d.delBlacklist id).getBlacklist id = .notFound := by
  simp [DB.delBlacklist, DB.getBlacklist, alookup_aerase]

/-- `Create` with a present, unexpired (deadline at or after now) blacklist
record fails with `BlacklistedError` and leaves the whole state unchanged. -/
theorem create_active_blacklist (r : RL) (id : Ident) (now : Nat) (val : List Nat)
    (hbl : r.db.getBlacklist id = .found val) (hlen : val.length = 8)
    (hdl : now ≤ fromBE8 val) :
    r.create id now = .err .blacklisted r := by
  have htk : val.take 8 = val := List.take_of_length_le (by omega)
  simp [RL.create, hbl, hlen, htk, hdl]

/-- Config-resolution and hydration steps when neither an override record nor
a capacity snapshot exists and the identity is unregistered: a fresh
default-config bucket is registered and `Create` succeeds. -/
theorem configLoad_fresh (r : RL) (id : Ident) (now : Nat)
    (hcfg : r.db.getConfig id = .notFound)
    (hcap : r.db.getCapacity id = .notFound)
    (hun : alookup r.buckets id = none) :
    r.createWithConfigLoad id now
      = .ok { r with buckets := (id, newBucket r.defaultConfig now) :: r.buckets } := by
  simp [RL.createWithConfigLoad, hcfg, RL.createWithCfg, RL.getOrCreate, hun, hcap]

/-- `Create` with no blacklist record, no override, no snapshot, and no
registered bucket: success with a fresh full-capacity bucket. -/
theorem create_fresh (r : RL) (id : Ident) (now : Nat)
    (hbl : r.db.getBlacklist id = .notFound)
    (hcfg : r.db.getConfig id = .notFound)
    (hcap : r.db.getCapacity id = .notFound)
    (hun : alookup r.buckets id = none) :
    r.create id now
      = .ok { r with buckets := (id, newBucket r.defaultConfig now) :: r.buckets } := by
  rw [RL.create]
  rw [hbl]
  exact configLoad_fresh r id now hcfg hcap hun

/-- `Create` with an expired blacklist record first deletes the stale record
and then proceeds with the config-resolution step. -/
theorem create_expired_blacklist (r : RL) (id : Ident) (now : Nat) (val : List Nat)
    (hbl : r.db.getBlacklist id = .found val) (hlen : val.length = 8)
    (hdl : fromBE8 val < now) :
    r.create id now
      = ({ r with db := r.db.delBlacklist id } : RL).createWithConfigLoad id now := by
  have htk : val.take 8 = val := List.take_of_length_le (by omega)
  simp [RL.create, hbl, hlen, htk, Nat.not_le.mpr hdl]

/-- C7 — BlacklistedError atomicity: whenever `Create(id)` fails with
`BlacklistedError` (a blacklist record is present, decodable, with deadline
`>= now`), the resulting state is literally the pre-call state `r`: no bucket
is created or registered for `id`, and the stored config-override and
capacity-snapshot tables are left unchanged. -/
theorem c7_blacklisted_atomic (r : RL) (id : Ident) (now : Nat) (val : List Nat)
    (hbl : r.db.getBlacklist id = .found val)
    (hlen : 8 ≤ val.length)
    (hdl : now ≤ fromBE8 (val.take 8)) :
    r.create id now = .err .blacklisted r := by
  simp [RL.create, hbl, Nat.not_lt.mpr hlen, hdl]

/-- Witness for C7 at a concrete banned identity. -/
theorem c7_blacklisted_atomic_witness :
    (RL.mk ⟨[([2], .found (toBE8 100))], [], [], true⟩ ⟨1, 10, 1⟩ []).db.getBlacklist [2]
        = .found (toBE8 100) ∧
    8 ≤ (toBE8 100).length ∧
    50 ≤ fromBE8 ((toBE8 100).take 8) ∧
    (RL.mk ⟨[([2], .found (toBE8 100))], [], [], true⟩ ⟨1, 10, 1⟩ []).create [2] 50
      = .err .blacklisted (RL.mk ⟨[([2], .found (toBE8 100))], [], [], true⟩ ⟨1, 10, 1⟩ []) :=
  ⟨by decide, by decide, by decide,
    c7_blacklisted_atomic (RL.mk ⟨[([2], .found (toBE8 100))], [], [], true⟩ ⟨1, 10, 1⟩ [])
      [2] 50 (toBE8 100) (by decide) (by decide) (by decide)⟩

/-- C10 — blacklist-load decode safety: when the blacklist read fails with an
I/O error other than not-found, `Create` reaches
`binary.BigEndian.Uint64` on the absent (nil) value and the Go code panics;
in the model the run ends in the distinguished `panic` outcome rather than
any ordinary result, exhibiting that the decode is *not* guarded by a
successful read as the claim requires. -/
theorem c10_create_ioerror_panic (r : RL) (id : Ident) (now : Nat)
    (h : r.db.getBlacklist id = .ioError) :
    r.create id now = .panic := by
  simp [RL.create, h]

/-- Witness for C10 at a concrete failing read. -/
theorem c10_create_ioerror_panic_witness :
    (RL.mk ⟨[([4], .ioError)], [], [], true⟩ ⟨1, 10, 1⟩ []).db.getBlacklist [4] = .ioError ∧
    (RL.mk ⟨[([4], .ioError)], [], [], true⟩ ⟨1, 10, 1⟩ []).create [4] 7 = .panic :=
  ⟨by decide,
    c10_create_ioerror_panic (RL.mk ⟨[([4], .ioError)], [], [], true⟩ ⟨1, 10, 1⟩ []) [4] 7
      (by decide)⟩

/-- C9 — `UpdateConfig` on an unregistered identity: the source applies
`compare` to the registry map's zero value (a nil bucket pointer) before its
nil check, so the call dereferences nil and panics (`none` in the model)
instead of returning success with a fresh bucket as the claim (and the
spec's step 3, `taken = 0` when no bucket existed) requires. -/
theorem c9_updateconfig_nil_panic (r : RL) (id : Ident) (c : Config) (now : Nat)
    (h : alookup r.buckets id = none) :
    r.updateConfig id c now = none := by
  simp [RL.updateConfig, h]

/-- Witness for C9 at a concrete unregistered identity. -/
theorem c9_updateconfig_nil_panic_witness :
    alookup (RL.mk ⟨[], [], [], true⟩ ⟨1, 10, 1⟩ []).buckets [5] = none ∧
    (RL.mk ⟨[], [], [], true⟩ ⟨1, 10, 1⟩ []).updateConfig [5] ⟨2, 20, 2⟩ 9 = none :=
  ⟨by decide,
    c9_updateconfig_nil_panic (RL.mk ⟨[], [], [], true⟩ ⟨1, 10, 1⟩ []) [5] ⟨2, 20, 2⟩ 9
      (by decide)⟩

/-- C5 — Fail-open on malformed snapshot: with no blacklist record, no
config override and no registered bucket, a stored capacity-snapshot record
whose byte length is not 16 makes `Create(id)` succeed (no error), leaving
the newly created bucket at full capacity; the record is only logged. -/
theorem c5_fail_open (r : RL) (id : Ident) (now : Nat) (val : List Nat)
    (hbl : r.db.getBlacklist id = .notFound)
    (hcfg : r.db.getConfig id = .notFound)
    (hcap : r.db.getCapacity id = .found val)
    (hlen : val.length ≠ 16)
    (hun : alookup r.buckets id = none) :
    ∃ r', r.create id now = .ok r' ∧
      ∃ b, alookup r'.buckets id = some b ∧
        b.availableAt now = r.defaultConfig.Capacity := by
  refine ⟨{ r with buckets := (id, newBucket r.defaultConfig now) :: r.buckets }, ?_, ?_⟩
  · rw [RL.create, hbl]
    simp [RL.createWithConfigLoad, hcfg, RL.createWithCfg, RL.getOrCreate, hun, hcap, hlen]
  · exact ⟨_, alookup_cons_self _ _ _, newBucket_availableAt _ _ _⟩

/-- Witness for C5 with a 3-byte capacity record. -/
theorem c5_fail_open_witness :
    (RL.mk ⟨[], [], [([6], .found [1, 2, 3])], true⟩ ⟨1, 10, 1⟩ []).db.getBlacklist [6]
        = .notFound ∧
    (RL.mk ⟨[], [], [([6], .found [1, 2, 3])], true⟩ ⟨1, 10, 1⟩ []).db.getConfig [6]
        = .notFound ∧
    (RL.mk ⟨[], [], [([6], .found [1, 2, 3])], true⟩ ⟨1, 10, 1⟩ []).db.getCapacity [6]
        = .found [1, 2, 3] ∧
    ([1, 2, 3] : List Nat).length ≠ 16 ∧
    alookup (RL.mk ⟨[], [], [([6], .found [1, 2, 3])], true⟩ ⟨1, 10, 1⟩ []).buckets [6] = none ∧
    (∃ r', (RL.mk ⟨[], [], [([6], .found [1, 2, 3])], true⟩ ⟨1, 10, 1⟩ []).create [6] 3 = .ok r' ∧
      ∃ b, alookup r'.buckets [6] = some b ∧
        b.availableAt 3
          = (RL.mk ⟨[], [], [([6], .found [1, 2, 3])], true⟩ ⟨1, 10, 1⟩ []).defaultConfig.Capacity) :=
  ⟨by decide, by decide, by decide, by decide, by decide,
    c5_fail_open (RL.mk ⟨[], [], [([6], .found [1, 2, 3])], true⟩ ⟨1, 10, 1⟩ []) [6] 3 [1, 2, 3]
      (by decide) (by decide) (by decide) (by decide) (by decide)⟩

/-- C6 (amended) — a capacity-snapshot read failing with an I/O error does
not surface a `PersistenceError` from `Create`: the nil value fails the
`len != 16` check, is logged, and `Create` succeeds with the identity at
full capacity (fail-open); only the config-override read surfaces
`PersistenceError` from `Create`. -/
theorem c6_capacity_ioerror_fail_open (r : RL) (id : Ident) (now : Nat)
    (hbl : r.db.getBlacklist id = .notFound)
    (hcfg : r.db.getConfig id = .notFound)
    (hcap : r.db.getCapacity id = .ioError)
    (hun : alookup r.buckets id = none) :
    ∃ r', r.create id now = .ok r' ∧
      ∃ b, alookup r'.buckets id = some b ∧
        b.availableAt now = r.defaultConfig.Capacity := by
  refine ⟨{ r with buckets := (id, newBucket r.defaultConfig now) :: r.buckets }, ?_, ?_⟩
  · rw [RL.create, hbl]
    simp [RL.createWithConfigLoad, hcfg, RL.createWithCfg, RL.getOrCreate, hun, hcap]
  · exact ⟨_, alookup_cons_self _ _ _, newBucket_availableAt _ _ _⟩

/-- Witness for the amended C6 at a concrete failing capacity read. -/
theorem c6_capacity_ioerror_fail_open_witness :
    (RL.mk ⟨[], [], [([3], .ioError)], true⟩ ⟨1, 10, 1⟩ []).db.getBlacklist [3] = .notFound ∧
    (RL.mk ⟨[], [], [([3], .ioError)], true⟩ ⟨1, 10, 1⟩ []).db.getConfig [3] = .notFound ∧
    (RL.mk ⟨[], [], [([3], .ioError)], true⟩ ⟨1, 10, 1⟩ []).db.getCapacity [3] = .ioError ∧
    alookup (RL.mk ⟨[], [], [([3], .ioError)], true⟩ ⟨1, 10, 1⟩ []).buckets [3] = none ∧
    (∃ r', (RL.mk ⟨[], [], [([3], .ioError)], true⟩ ⟨1, 10, 1⟩ []).create [3] 5 = .ok r' ∧
      ∃ b, alookup r'.buckets [3] = some b ∧
        b.availableAt 5
          = (RL.mk ⟨[], [], [([3], .ioError)], true⟩ ⟨1, 10, 1⟩ []).defaultConfig.Capacity) :=
  ⟨by decide, by decide, by decide, by decide,
    c6_capacity_ioerror_fail_open (RL.mk ⟨[], [], [([3], .ioError)], true⟩ ⟨1, 10, 1⟩ []) [3] 5
      (by decide) (by decide) (by decide) (by decide)⟩

/-- Counterexample for C6 as stated: with the capacity-snapshot read failing
with an I/O error (not the not-found outcome), `Create` does not return a
`PersistenceError` — it returns success. -/
theorem c6_counterexample :
    (RL.mk ⟨[], [], [([9], .ioError)], true⟩ ⟨1, 10, 1⟩ []).db.getCapacity [9] = .ioError ∧
    ((RL.mk ⟨[], [], [([9], .ioError)], true⟩ ⟨1, 10, 1⟩ []).create [9] 5).isOk = true := by
  constructor
  · decide
  · decide

/-! ### Hydration of a well-formed snapshot -/

/-- With no override record, a 16-byte capacity snapshot and no registered
bucket, the config-load step registers a fresh default bucket and replays the
snapshot's first 8 bytes through `takeAvailable`. -/
theorem configLoad_snapshot (r : RL) (id : Ident) (now : Nat) (v : List Nat)
    (hcfg : r.db.getConfig id = .notFound)
    (hcap : r.db.getCapacity id = .found v)
    (hlen : v.length = 16)
    (hun : alookup r.buckets id = none) :
    ∃ r', r.createWithConfigLoad id now = .ok r' ∧
      alookup r'.buckets id
        = some ((newBucket r.defaultConfig now).takeAvailable now (fromBE8 (v.take 8))).1 := by
  refine ⟨{ r with buckets := aset ((id, newBucket r.defaultConfig now) :: r.buckets) id ((newBucket r.defaultConfig now).takeAvailable now (fromBE8 (v.take 8))).1 }, ?_, ?_⟩
  · simp [RL.createWithConfigLoad, hcfg, RL.createWithCfg, RL.getOrCreate, hun, hcap, hlen]
  · exact alookup_aset _ _ _

/-- C2 (amended) — Blacklist window: after `Remove(id, D)` at time `T` with
`D != 0`, `Create(id)` fails with `BlacklistedError` at every time `t` in the
*closed* interval `[T, T+D]` (the code rejects while `deadline >= now`), and
`Create(id)` at any `t > T + D` succeeds, deletes the stale blacklist record,
and registers a fresh full-capacity bucket. -/
theorem c2_blacklist_window (r0 : RL) (id : Ident) (T D : Nat)
    (hD : D ≠ 0) (hTD : T + D < 18446744073709551616)
    (hun : alookup r0.buckets id = none)
    (hput : r0.db.putOK = true)
    (hcfg : r0.db.getConfig id = .notFound)
    (hcap : r0.db.getCapacity id = .notFound) :
    ∃ r1, r0.remove id D T = some r1 ∧
      (∀ t, T ≤ t → t ≤ T + D → r1.create id t = .err .blacklisted r1) ∧
      (∀ t, T + D < t → ∃ r2, r1.create id t = .ok r2 ∧
        r2.db.getBlacklist id = .notFound ∧
        ∃ b, alookup r2.buckets id = some b ∧
          b.availableAt t = r0.defaultConfig.Capacity) := by
  set r1 : RL :=
    { r0 with
      db := { r0.db with
        blacklistTbl := aset r0.db.blacklistTbl id (.found (toBE8 (T + D))) },
      buckets := aerase r0.buckets id } with hr1
  have hbl1 : r1.db.getBlacklist id = .found (toBE8 (T + D)) := by
    simp [hr1, DB.getBlacklist, alookup_aset]
  refine ⟨r1, ?_, ?_, ?_⟩
  · simp [RL.remove, hD, RL.blacklistOp, DB.putBlacklist, hput, hun, hr1]
  · intro t _ ht2
    refine create_active_blacklist r1 id t (toBE8 (T + D)) hbl1 (toBE8_length _) ?_
    rw [fromBE8_toBE8 _ hTD]
    exact ht2
  · intro t ht
    rw [create_expired_blacklist r1 id t (toBE8 (T + D)) hbl1 (toBE8_length _)
      (by rw [fromBE8_toBE8 _ hTD]; exact ht)]
    have hcfg' : ({ r1 with db := r1.db.delBlacklist id } : RL).db.getConfig id
        = .notFound := hcfg
    have hcap' : ({ r1 with db := r1.db.delBlacklist id } : RL).db.getCapacity id
        = .notFound := hcap
    have hun' : alookup ({ r1 with db := r1.db.delBlacklist id } : RL).buckets id = none :=
      alookup_aerase _ _
    rw [configLoad_fresh _ id t hcfg' hcap' hun']
    refine ⟨_, rfl, ?_, ?_⟩
    · exact getBlacklist_delBlacklist r1.db id
    · exact ⟨_, alookup_cons_self _ _ _, newBucket_availableAt _ _ _⟩

/-- Witness for the amended C2: ban for 60 seconds at `T = 1000`; `Create`
fails at 1030 and at 1060, succeeds at 1061. -/
theorem c2_blacklist_window_witness :
    (60 ≠ 0 ∧ 1000 + 60 < 18446744073709551616 ∧
      alookup (RL.mk ⟨[], [], [], true⟩ ⟨1, 10, 1⟩ []).buckets [7] = none ∧
      (RL.mk ⟨[], [], [], true⟩ ⟨1, 10, 1⟩ []).db.putOK = true ∧
      (RL.mk ⟨[], [], [], true⟩ ⟨1, 10, 1⟩ []).db.getConfig [7] = .notFound ∧
      (RL.mk ⟨[], [], [], true⟩ ⟨1, 10, 1⟩ []).db.getCapacity [7] = .notFound) ∧
    (∃ r1, (RL.mk ⟨[], [], [], true⟩ ⟨1, 10, 1⟩ []).remove [7] 60 1000 = some r1 ∧
      (∀ t, 1000 ≤ t → t ≤ 1000 + 60 → r1.create [7] t = .err .blacklisted r1) ∧
      (∀ t, 1000 + 60 < t → ∃ r2, r1.create [7] t = .ok r2 ∧
        r2.db.getBlacklist [7] = .notFound ∧
        ∃ b, alookup r2.buckets [7] = some b ∧
          b.availableAt t = (RL.mk ⟨[], [], [], true⟩ ⟨1, 10, 1⟩ []).defaultConfig.Capacity)) :=
  ⟨⟨by decide, by decide, by decide, by decide, by decide, by decide⟩,
    c2_blacklist_window (RL.mk ⟨[], [], [], true⟩ ⟨1, 10, 1⟩ []) [7] 1000 60
      (by decide) (by decide) (by decide) (by decide) (by decide) (by decide)⟩

/-- Counterexample for C2 as stated: `Remove(id, 60)` at `T = 1000` writes
deadline 1060, and `Create` at exactly `T + D = 1060` still fails with
`BlacklistedError` (the code rejects while `deadline >= now`), where the
claim's half-open window `[T, T+D)` demands success at `T + D`. -/
theorem c2_counterexample :
    ((RL.mk ⟨[], [], [], true⟩ ⟨1, 10, 1⟩ []).remove [7] 60 1000).map
        (fun r1 => ((r1.create [7] 1060).isOk, (r1.create [7] 1060).isBlacklistedErr))
      = some (false, true) := by decide

/-- C3 — Snapshot round-trip with no refill credit: `Remove(id, 0)` on an
in-memory bucket persists a 16-byte record whose first 8 bytes are the
big-endian u64 consumed amount (capacity minus available) and whose last 8
bytes are the big-endian u64 save time `t0`; a later `Create(id)` at any time
`t1 >= t0` restores the bucket to `available = capacity - consumed` exactly,
with no refill credit for the elapsed time `t1 - t0`. -/
theorem c3_snapshot_roundtrip (r0 : RL) (id : Ident) (b : Bucket) (t0 t1 : Nat)
    (hb : alookup r0.buckets id = some b)
    (hcapb : b.capacity = r0.defaultConfig.Capacity)
    (hC : r0.defaultConfig.Capacity < 18446744073709551616)
    (hbl : r0.db.getBlacklist id = .notFound)
    (hcfg : r0.db.getConfig id = .notFound)
    (hput : r0.db.putOK = true)
    (_ht : t0 ≤ t1) :
    ∃ r1, r0.remove id 0 t0 = some r1 ∧
      r1.db.getCapacity id
        = .found (toBE8 (b.capacity - b.availableAt t0) ++ toBE8 t0) ∧
      (toBE8 (b.capacity - b.availableAt t0) ++ toBE8 t0).length = 16 ∧
      ∃ r2 b2, r1.create id t1 = .ok r2 ∧ alookup r2.buckets id = some b2 ∧
        b2.availableAt t1
          = r0.defaultConfig.Capacity - (b.capacity - b.availableAt t0) := by
  have hcC : b.capacity - b.availableAt t0 ≤ r0.defaultConfig.Capacity := by
    rw [← hcapb]; omega
  have hc64 : b.capacity - b.availableAt t0 < 18446744073709551616 :=
    lt_of_le_of_lt hcC hC
  set r1 : RL := { r0 with buckets := aerase r0.buckets id, db := { r0.db with capacityTbl := aset r0.db.capacityTbl id (.found (snapshotBytes b t0)) } } with hr1
  have hcapv : r1.db.getCapacity id = .found (snapshotBytes b t0) := by
    simp [hr1, DB.getCapacity, alookup_aset]
  have hsnap : snapshotBytes b t0 = toBE8 (b.capacity - b.availableAt t0) ++ toBE8 t0 := rfl
  have hlen16 : (snapshotBytes b t0).length = 16 := by
    simp [snapshotBytes, toBE8_length]
  refine ⟨r1, ?_, by rw [hcapv, hsnap], by rw [← hsnap, hlen16], ?_⟩
  · simp [RL.remove, hb, RL.storeOp, DB.putCapacity, hput, hr1]
  · have hbl1 : r1.db.getBlacklist id = .notFound := hbl
    have hcfg1 : r1.db.getConfig id = .notFound := hcfg
    have hun1 : alookup r1.buckets id = none := alookup_aerase _ _
    obtain ⟨r2, hr2, hbk⟩ := configLoad_snapshot r1 id t1 (snapshotBytes b t0)
      hcfg1 hcapv hlen16 hun1
    have htk : (snapshotBytes b t0).take 8 = toBE8 (b.capacity - b.availableAt t0) := by
      rw [hsnap, ← toBE8_length (b.capacity - b.availableAt t0)]
      exact List.take_left _ _
    have hfe : fromBE8 ((snapshotBytes b t0).take 8) = b.capacity - b.availableAt t0 := by
      rw [htk]
      exact fromBE8_toBE8 _ hc64
    refine ⟨r2, _, ?_, hbk, ?_⟩
    · rw [RL.create, hbl1]
      exact hr2
    · rw [hfe]
      have hdc : r1.defaultConfig = r0.defaultConfig := rfl
      simp only [hdc]
      simp [Bucket.takeAvailable, newBucket, Bucket.availableAt, Bucket.refill, Nat.sub_self]
      omega

/-- Witness for C3: a capacity-10 bucket with 3 tokens available (7 consumed)
is evicted at `t0 = 5` and recreated at `t1 = 100`; it comes back with
exactly 3 tokens, no refill credit for the 95 elapsed seconds. -/
theorem c3_snapshot_roundtrip_witness :
    (alookup (RL.mk ⟨[], [], [], true⟩ ⟨1, 10, 1⟩ [([8], ⟨10, 3, 1, 1, 5⟩)]).buckets [8]
        = some ⟨10, 3, 1, 1, 5⟩ ∧
      (⟨10, 3, 1, 1, 5⟩ : Bucket).capacity
        = (RL.mk ⟨[], [], [], true⟩ ⟨1, 10, 1⟩ [([8], ⟨10, 3, 1, 1, 5⟩)]).defaultConfig.Capacity ∧
      (RL.mk ⟨[], [], [], true⟩ ⟨1, 10, 1⟩ [([8], ⟨10, 3, 1, 1, 5⟩)]).defaultConfig.Capacity
        < 18446744073709551616 ∧
      (RL.mk ⟨[], [], [], true⟩ ⟨1, 10, 1⟩ [([8], ⟨10, 3, 1, 1, 5⟩)]).db.getBlacklist [8]
        = .notFound ∧
      (RL.mk ⟨[], [], [], true⟩ ⟨1, 10, 1⟩ [([8], ⟨10, 3, 1, 1, 5⟩)]).db.getConfig [8]
        = .notFound ∧
      (RL.mk ⟨[], [], [], true⟩ ⟨1, 10, 1⟩ [([8], ⟨10, 3, 1, 1, 5⟩)]).db.putOK = true ∧
      (5 : Nat) ≤ 100) ∧
    (∃ r1, (RL.mk ⟨[], [], [], true⟩ ⟨1, 10, 1⟩ [([8], ⟨10, 3, 1, 1, 5⟩)]).remove [8] 0 5
        = some r1 ∧
      r1.db.getCapacity [8]
        = .found (toBE8 ((⟨10, 3, 1, 1, 5⟩ : Bucket).capacity
            - (⟨10, 3, 1, 1, 5⟩ : Bucket).availableAt 5) ++ toBE8 5) ∧
      (toBE8 ((⟨10, 3, 1, 1, 5⟩ : Bucket).capacity
          - (⟨10, 3, 1, 1, 5⟩ : Bucket).availableAt 5) ++ toBE8 5).length = 16 ∧
      ∃ r2 b2, r1.create [8] 100 = .ok r2 ∧ alookup r2.buckets [8] = some b2 ∧
        b2.availableAt 100
          = (RL.mk ⟨[], [], [], true⟩ ⟨1, 10, 1⟩ [([8], ⟨10, 3, 1, 1, 5⟩)]).defaultConfig.Capacity
            - ((⟨10, 3, 1, 1, 5⟩ : Bucket).capacity - (⟨10, 3, 1, 1, 5⟩ : Bucket).availableAt 5)) :=
  ⟨⟨by decide, by decide, by decide, by decide, by decide, by decide, by decide⟩,
    c3_snapshot_roundtrip (RL.mk ⟨[], [], [], true⟩ ⟨1, 10, 1⟩ [([8], ⟨10, 3, 1, 1, 5⟩)])
      [8] ⟨10, 3, 1, 1, 5⟩ 5 100 (by decide) (by decide) (by decide) (by decide) (by decide)
      (by decide) (by decide)⟩

/-- C4 (amended) — Reconfiguration continuity: for an identity with an
active in-memory bucket whose consumed amount is `c`, `UpdateConfig` with an
equivalent config is a no-op returning success with the state unchanged
(same registered bucket, same `available()`), and `UpdateConfig` with a
non-equivalent config succeeds and replaces the bucket with a new one under
the new config whose consumed amount is `min(c, newConfig.Capacity)`
immediately after the call — the preserved budget is capped at the new
capacity (the replay `newBucket.takeAvailable(c)` can debit at most the new
bucket's capacity), not always exactly `c` as the claim states. -/
theorem c4_reconfig_continuity (r : RL) (id : Ident) (b : Bucket) (c : Config) (now : Nat)
    (hb : alookup r.buckets id = some b) :
    (compare c b = true → r.updateConfig id c now = some r) ∧
    (compare c b = false →
      ∃ r' b', r.updateConfig id c now = some r' ∧
        alookup r'.buckets id = some b' ∧
        b'.capacity = c.Capacity ∧
        c.Capacity - b'.availableAt now
          = min (b.capacity - b.availableAt now) c.Capacity) := by
  constructor
  · intro hcmp
    simp [RL.updateConfig, hb, hcmp]
  · intro hcmp
    refine ⟨{ r with buckets := aset ((id, newBucket c now) :: aerase r.buckets id) id ((newBucket c now).takeAvailable now (b.capacity - b.availableAt now)).1 }, ((newBucket c now).takeAvailable now (b.capacity - b.availableAt now)).1, ?_, ?_, ?_, ?_⟩
    · simp [RL.updateConfig, hb, hcmp, RL.getOrCreate, alookup_aerase]
    · exact alookup_aset _ _ _
    · simp [Bucket.takeAvailable, Bucket.refill, newBucket]
    · simp [Bucket.takeAvailable, Bucket.refill, newBucket, Bucket.availableAt, Nat.sub_self]
      omega

/-- Witness for the amended C4: capacity-10 bucket with 6 consumed; an
equivalent config is a no-op; shrinking capacity to 5 yields consumed
`min(6, 5) = 5`. -/
theorem c4_reconfig_continuity_witness :
    alookup (RL.mk ⟨[], [], [], true⟩ ⟨1, 10, 1⟩ [([8], ⟨10, 4, 1, 1, 0⟩)]).buckets [8]
        = some ⟨10, 4, 1, 1, 0⟩ ∧
    ((compare (⟨1, 5, 1⟩ : Config) (⟨10, 4, 1, 1, 0⟩ : Bucket) = true →
        (RL.mk ⟨[], [], [], true⟩ ⟨1, 10, 1⟩ [([8], ⟨10, 4, 1, 1, 0⟩)]).updateConfig [8] ⟨1, 5, 1⟩ 0
          = some (RL.mk ⟨[], [], [], true⟩ ⟨1, 10, 1⟩ [([8], ⟨10, 4, 1, 1, 0⟩)])) ∧
      (compare (⟨1, 5, 1⟩ : Config) (⟨10, 4, 1, 1, 0⟩ : Bucket) = false →
        ∃ r' b',
          (RL.mk ⟨[], [], [], true⟩ ⟨1, 10, 1⟩ [([8], ⟨10, 4, 1, 1, 0⟩)]).updateConfig [8] ⟨1, 5, 1⟩ 0
            = some r' ∧
          alookup r'.buckets [8] = some b' ∧
          b'.capacity = (⟨1, 5, 1⟩ : Config).Capacity ∧
          (⟨1, 5, 1⟩ : Config).Capacity - b'.availableAt 0
            = min ((⟨10, 4, 1, 1, 0⟩ : Bucket).capacity
                - (⟨10, 4, 1, 1, 0⟩ : Bucket).availableAt 0) (⟨1, 5, 1⟩ : Config).Capacity)) :=
  ⟨by decide,
    c4_reconfig_continuity (RL.mk ⟨[], [], [], true⟩ ⟨1, 10, 1⟩ [([8], ⟨10, 4, 1, 1, 0⟩)])
      [8] ⟨10, 4, 1, 1, 0⟩ ⟨1, 5, 1⟩ 0 (by decide)⟩

/-- Counterexample for C4 as stated: an active bucket with capacity 10 and
consumed `c = 10` reconfigured to a non-equivalent config of capacity 5
yields a new bucket with consumed 5, not `c = 10` — the claim's "consumed
amount is c immediately after the call" fails when the new capacity is
smaller than `c`. -/
theorem c4_counterexample :
    compare (⟨1, 5, 1⟩ : Config) (⟨10, 0, 1, 1, 0⟩ : Bucket) = false ∧
    ((RL.mk ⟨[], [], [], true⟩ ⟨1, 10, 1⟩ [([9], ⟨10, 0, 1, 1, 0⟩)]).updateConfig [9] ⟨1, 5, 1⟩ 0).map
        (fun r' => (alookup r'.buckets [9]).map (fun b' => b'.capacity - b'.availableAt 0))
      = some (some 5) ∧
    some (some (5 : Nat)) ≠ some (some (10 : Nat)) := by
  refine ⟨by decide, by decide, by decide⟩

/-- C8 — `TakeAvailable` never fails on persistence trouble: the returned
amount and the registry (bucket state) after `TakeAvailable(id, count)` are
the same whether the opportunistic snapshot `Put` succeeds or fails; the
returned amount is exactly what `takeAvailable` debits from the in-memory
bucket. A persist failure is logged only. -/
theorem c8_take_persistence_immune (d : DB) (dc : Config) (bs : List (Ident × Bucket))
    (id : Ident) (n now : Nat) (p q : Bool) :
    ((RL.mk { d with putOK := p } dc bs).take id n now).2
      = ((RL.mk { d with putOK := q } dc bs).take id n now).2 ∧
    ((RL.mk { d with putOK := p } dc bs).take id n now).1.buckets
      = ((RL.mk { d with putOK := q } dc bs).take id n now).1.buckets ∧
    ((RL.mk { d with putOK := p } dc bs).take id n now).2
      = (((RL.mk { d with putOK := p } dc bs).getOrCreate id dc now).2.takeAvailable now n).2 := by
  cases h : alookup bs id with
  | none =>
    cases p <;> cases q <;>
      simp [RL.take, RL.getOrCreate, h, RL.storeOp, DB.putCapacity]
  | some b =>
    cases p <;> cases q <;>
      simp [RL.take, RL.getOrCreate, h, RL.storeOp, DB.putCapacity]
